import Mathlib

/-!
Shallow embedding of the windowed carbon-intensity forecast engine of the
ecocompute repository (src/cats/forecast.py, src/core/forecast.py,
src/cats/carbonFootprint.py, src/core/carbon_scheduler.py).

Modelling conventions:
* Python `datetime` instants and `timedelta` spans are rational numbers of
  seconds (`ℚ`); `timedelta(minutes=m)` becomes `60 * m`.  Timezone
  conversion (`astimezone`) preserves the instant, so it is the identity here.
* Python `float` values are modelled as `ℚ`.
* Python exceptions are modelled with `Except PyErr`; `x / 0`, which raises
  `ZeroDivisionError` in Python, is modelled by the guarded division `pyDiv`.
* Python list indexing and slicing (including negative indices) are modelled
  by `pyIdx`, `pyGet` and `pySlice`.
-/

/-- Python exception kinds raised by the embedded code. -/
inductive PyErr where
  | valueError : String → PyErr
  | indexError : String → PyErr
  | zeroDivisionError : PyErr
  deriving DecidableEq, Repr

deriving instance DecidableEq for Except

/-- Python index resolution on a list of length `n`: nonnegative indices are
used as-is when in range, negative indices count from the end. -/
def pyIdx (n : ℕ) (i : ℤ) : Option ℕ :=
  if 0 ≤ i then
    if i < (n : ℤ) then some i.toNat else none
  else
    if 0 ≤ i + (n : ℤ) then some (i + (n : ℤ)).toNat else none

/-- Python `xs[i]` for lists, with negative-index semantics. -/
def pyGet {α : Type} (xs : List α) (i : ℤ) : Option α :=
  (pyIdx xs.length i).bind fun k => xs.get? k

/-- Python `xs[i]`, raising `IndexError` when out of range. -/
def pyGetE {α : Type} (xs : List α) (i : ℤ) : Except PyErr α :=
  match pyGet xs i with
  | some a => .ok a
  | none => .error (.indexError "list index out of range")

/-- Clamp a (possibly negative) Python slice bound to a position in `0..n`. -/
def pySliceBound (n : ℕ) (i : ℤ) : ℕ :=
  if i < 0 then (max 0 (i + (n : ℤ))).toNat else min i.toNat n

/-- Python `xs[a:b]`. -/
def pySlice {α : Type} (xs : List α) (a b : ℤ) : List α :=
  (xs.take (pySliceBound xs.length b)).drop (pySliceBound xs.length a)

/-- Python `xs[a:]`. -/
def pySliceFrom {α : Type} (xs : List α) (a : ℤ) : List α :=
  xs.drop (pySliceBound xs.length a)

/-- Python true division: raises `ZeroDivisionError` on a zero divisor. -/
def pyDiv (a b : ℚ) : Except PyErr ℚ :=
  if b = 0 then .error .zeroDivisionError else .ok (a / b)

/-- Python `int()` applied to a rational: truncation toward zero. -/
def pyInt (q : ℚ) : ℤ :=
  if 0 ≤ q then ⌊q⌋ else ⌈q⌉

/-- Index of the first element satisfying `p` (the `for`/`break` scan used by
the source's local search loops). -/
def findFirstIdx {α : Type} (p : α → Bool) : List α → Option ℕ
  | [] => none
  | a :: l => if p a then some 0 else (findFirstIdx p l).map (fun i => i + 1)

namespace cats

/-- `CarbonIntensityPointEstimate` from src/cats/forecast.py: a single point
of the intensity timeseries (`value` in gCO2/kWh first, for sorting). -/
structure CarbonIntensityPointEstimate where
  value : ℚ
  datetime : ℚ
  deriving DecidableEq, Repr

/-- `CarbonIntensityAverageEstimate` from src/cats/forecast.py: the average
over one window.  Field order matches the dataclass declaration order
(`value`, `start`, `end`, `start_value`, `end_value`), which is the
lexicographic comparison order of `@dataclass(order=True)`. -/
structure CarbonIntensityAverageEstimate where
  value : ℚ
  start : ℚ
  «end» : ℚ
  start_value : ℚ
  end_value : ℚ
  deriving DecidableEq, Repr

/-- State of a constructed `WindowedForecast` (src/cats/forecast.py): the
fields assigned by `__init__`. -/
structure WindowedForecast where
  duration : ℤ
  max_window_minutes : Option ℤ
  end_constraint : Option ℚ
  data_stepsize : ℚ
  start : ℚ
  «end» : ℚ
  data : List CarbonIntensityPointEstimate
  ndata : ℕ
  deriving DecidableEq, Repr

/-- `WindowedForecast._filter_data_by_constraints`: keep the leading samples
with timestamp ≤ min(start + lookahead, deadline) + duration; fail when
fewer than 2 remain. -/
def filter_data_by_constraints (data : List CarbonIntensityPointEstimate)
    (start : ℚ) (duration : ℤ) (max_window_minutes : ℤ)
    (end_constraint : Option ℚ) : Except PyErr (List CarbonIntensityPointEstimate) :=
  let swe := start + 60 * (max_window_minutes : ℚ)
  let swe := match end_constraint with
    | some ec => min swe ec
    | none => swe
  let max_data_time := swe + 60 * (duration : ℚ)
  let filtered_data := data.takeWhile (fun d => decide (d.datetime ≤ max_data_time))
  if filtered_data.length < 2 then
    .error (.valueError "Insufficient forecast data for the specified time window constraints.")
  else .ok filtered_data

/-- The local `bisect_right` of `__init__`: index of the first sample past
`t`, minus one (so `-1` when even the first sample is past `t`); the last
index when no sample is past `t`. -/
def bisect_right (data : List CarbonIntensityPointEstimate) (t : ℚ) : ℤ :=
  match findFirstIdx (fun d => decide (t < d.datetime)) data with
  | some i => (i : ℤ) - 1
  | none => (data.length : ℤ) - 1

/-- The local `bisect_left` of `__init__`: one more than the index of the
first sample `d` with `d.datetime + stepsize ≥ t`; `ValueError` when none. -/
def bisect_left (data : List CarbonIntensityPointEstimate) (stepsize t : ℚ) :
    Except PyErr ℕ :=
  match findFirstIdx (fun d => decide (t ≤ d.datetime + stepsize)) data with
  | some i => .ok (i + 1)
  | none => .error (.valueError "No index found for closest data point past job end time")

/-- `WindowedForecast.__init__` (src/cats/forecast.py). -/
def WindowedForecast.init (data : List CarbonIntensityPointEstimate)
    (duration : ℤ) (start : ℚ) (max_window_minutes : Option ℤ)
    (end_constraint : Option ℚ) : Except PyErr WindowedForecast := do
  let filtered_data ←
    if max_window_minutes.isSome || end_constraint.isSome then
      filter_data_by_constraints data start duration
        (match max_window_minutes with
         | some m => if m = 0 then 2820 else m
         | none => 2820)
        end_constraint
    else .ok data
  let p1 ← pyGetE filtered_data 1
  let p0 ← pyGetE filtered_data 0
  let data_stepsize := p1.datetime - p0.datetime
  let endT := start + 60 * (duration : ℚ)
  let wdata := pySliceFrom filtered_data (bisect_right filtered_data start)
  let ndata ← bisect_left wdata data_stepsize endT
  .ok { duration, max_window_minutes, end_constraint, data_stepsize, start,
        «end» := endT, data := wdata, ndata }

/-- `WindowedForecast.__len__` (src/cats/forecast.py). -/
def WindowedForecast.len (w : WindowedForecast) : Except PyErr ℤ :=
  let base_length : ℤ := (w.data.length : ℤ) - (w.ndata : ℤ)
  if base_length ≤ 0 then .ok 0
  else do
    let mvi₀ : ℤ := base_length - 1
    let mvi₁ ←
      match w.max_window_minutes with
      | some mw => do
          let data_stepsize_minutes := w.data_stepsize / 60
          let q ← pyDiv (mw : ℚ) data_stepsize_minutes
          Except.ok (min mvi₀ (pyInt q))
      | none => Except.ok mvi₀
    let mvi₂ :=
      match w.end_constraint with
      | some ec =>
          match findFirstIdx
              (fun (i : ℕ) => decide (ec ≤ w.start + (i : ℚ) * w.data_stepsize))
              (List.range (min base_length (mvi₁ + 1)).toNat) with
          | some i => (i : ℤ) - 1
          | none => mvi₁
      | none => mvi₁
    .ok (max 0 (mvi₂ + 1))

/-- `WindowedForecast.interp`: linear interpolation between two samples. -/
def WindowedForecast.interp (p1 p2 : CarbonIntensityPointEstimate) (t : ℚ) :
    Except PyErr CarbonIntensityPointEstimate := do
  let timestep := p2.datetime - p1.datetime
  let slope ← pyDiv (p2.value - p1.value) timestep
  let offset := t - p1.datetime
  .ok { value := p1.value + slope * offset, datetime := t }

/-- The point list assembled by `__getitem__` for window `index`, together
with its two boundary points: `(lbound, rbound, window_data)` where
`window_data = [lbound] + data[index+1 : index+ndata] + [rbound]`. -/
def WindowedForecast.window_points (w : WindowedForecast) (index : ℤ) :
    Except PyErr (CarbonIntensityPointEstimate × CarbonIntensityPointEstimate ×
      List CarbonIntensityPointEstimate) := do
  let window_start := w.start + index * w.data_stepsize
  let window_end := w.«end» + index * w.data_stepsize
  let a ← pyGetE w.data index
  let b ← pyGetE w.data (index + 1)
  let lbound ← WindowedForecast.interp a b window_start
  let rbound ←
    if index + (w.ndata : ℤ) = (w.data.length : ℤ) then
      pyGetE w.data (-1)
    else do
      let c ← pyGetE w.data (index + (w.ndata : ℤ) - 1)
      let d ← pyGetE w.data (index + (w.ndata : ℤ))
      WindowedForecast.interp c d window_end
  .ok (lbound, rbound,
       [lbound] ++ pySlice w.data (index + 1) (index + (w.ndata : ℤ)) ++ [rbound])

/-- The trapezoidal accumulation of `__getitem__`: sum over adjacent pairs of
`0.5 · (a.value + b.value) · (seconds from a to b)`. -/
def trapzAcc : List CarbonIntensityPointEstimate → ℚ
  | a :: b :: rest => (1 / 2) * (a.value + b.value) * (b.datetime - a.datetime)
      + trapzAcc (b :: rest)
  | _ => 0

/-- `WindowedForecast.__getitem__` (src/cats/forecast.py). -/
def WindowedForecast.getitem (w : WindowedForecast) (index : ℤ) :
    Except PyErr CarbonIntensityAverageEstimate := do
  let n ← w.len
  if n ≤ index then .error (.indexError "Window index out of range")
  else do
    let window_start := w.start + index * w.data_stepsize
    let window_end := w.«end» + index * w.data_stepsize
    let (lbound, rbound, window_data) ← w.window_points index
    let acc := trapzAcc window_data
    let lastp ← pyGetE window_data (-1)
    let firstp ← pyGetE window_data 0
    let value ← pyDiv acc (lastp.datetime - firstp.datetime)
    .ok { value, start := window_start, «end» := window_end,
          start_value := lbound.value, end_value := rbound.value }

/-- The loop of `__iter__`: yield `self[index]` for each listed index. -/
def WindowedForecast.iterAux (w : WindowedForecast) :
    List ℕ → Except PyErr (List CarbonIntensityAverageEstimate)
  | [] => .ok []
  | i :: rest => do
      let a ← w.getitem (i : ℤ)
      let l ← WindowedForecast.iterAux w rest
      .ok (a :: l)

/-- `WindowedForecast.__iter__`: the windows at offsets `0 .. len-1`. -/
def WindowedForecast.iter (w : WindowedForecast) :
    Except PyErr (List CarbonIntensityAverageEstimate) := do
  let n ← w.len
  WindowedForecast.iterAux w (List.range n.toNat)

end cats

namespace core

/-- `CarbonIntensityPoint` from src/core/forecast.py. -/
structure CarbonIntensityPoint where
  value : ℚ
  datetime : ℚ
  deriving DecidableEq, Repr

/-- `CarbonIntensityWindow` from src/core/forecast.py, field order as in the
`@dataclass(order=True)` declaration. -/
structure CarbonIntensityWindow where
  value : ℚ
  start : ℚ
  «end» : ℚ
  start_value : ℚ
  end_value : ℚ
  deriving DecidableEq, Repr

/-- State of a constructed core `WindowedForecast` (src/core/forecast.py). -/
structure WindowedForecast where
  duration : ℤ
  max_window_minutes : ℤ
  data_stepsize : ℚ
  start : ℚ
  «end» : ℚ
  data : List CarbonIntensityPoint
  ndata : ℤ
  deriving DecidableEq, Repr

/-- Python `max_window_minutes or 2820`: `None` and `0` are falsy. -/
def orDefault2820 (x : Option ℤ) : ℤ :=
  match x with
  | some m => if m = 0 then 2820 else m
  | none => 2820

/-- Core `WindowedForecast.__init__` (src/core/forecast.py). -/
def WindowedForecast.init (data : List CarbonIntensityPoint) (duration : ℤ)
    (start : ℚ) (max_window_minutes : Option ℤ) :
    Except PyErr WindowedForecast := do
  let mw := orDefault2820 max_window_minutes
  let data_stepsize :=
    match data with
    | p0 :: p1 :: _ => p1.datetime - p0.datetime
    | _ => 60 * 30
  let endT := start + 60 * (duration : ℚ)
  let filtered_data := data.filter (fun d => decide (start - data_stepsize ≤ d.datetime))
  let wdata := if filtered_data.isEmpty then data else filtered_data
  let q ← pyDiv (duration : ℚ) (data_stepsize / 60)
  let ndata : ℤ := max 1 (pyInt q + 1)
  .ok { duration, max_window_minutes := mw, data_stepsize, start, «end» := endT,
        data := wdata, ndata }

/-- Core `WindowedForecast.__len__` (src/core/forecast.py). -/
def WindowedForecast.len (w : WindowedForecast) : Except PyErr ℤ := do
  let max_windows : ℤ := (w.data.length : ℤ) - w.ndata + 1
  let max_windows ←
    if w.max_window_minutes ≠ 0 then do
      let stepsize_minutes := w.data_stepsize / 60
      let q ← pyDiv (w.max_window_minutes : ℚ) stepsize_minutes
      Except.ok (min max_windows (pyInt q))
    else Except.ok max_windows
  .ok (max 1 max_windows)

/-- Core `WindowedForecast.__getitem__` (src/core/forecast.py): plain
arithmetic mean of the raw samples inside the window, with a positional
fallback slice and an all-zero fallback window. -/
def WindowedForecast.getitem (w : WindowedForecast) (index : ℤ) :
    Except PyErr CarbonIntensityWindow := do
  let n ← w.len
  if n ≤ index then .error (.indexError "Window index out of range")
  else do
    let window_start := w.start + index * w.data_stepsize
    let window_end := window_start + 60 * (w.duration : ℚ)
    let window_data := w.data.filter
      (fun d => decide (window_start ≤ d.datetime) && decide (d.datetime ≤ window_end))
    let window_data :=
      if window_data.isEmpty then pySlice w.data index (index + w.ndata)
      else window_data
    if window_data.isEmpty then
      .ok { value := 0, start := window_start, «end» := window_end,
            start_value := 0, end_value := 0 }
    else do
      let total := (window_data.map (fun d => d.value)).sum
      let avg ← pyDiv total (window_data.length : ℚ)
      let firstp ← pyGetE window_data 0
      let lastp ← pyGetE window_data (-1)
      .ok { value := avg, start := window_start, «end» := window_end,
            start_value := firstp.value, end_value := lastp.value }

/-- The loop of the core `__iter__`: yield `self[index]` for each index. -/
def WindowedForecast.iterAux (w : WindowedForecast) :
    List ℕ → Except PyErr (List CarbonIntensityWindow)
  | [] => .ok []
  | i :: rest => do
      let a ← w.getitem (i : ℤ)
      let l ← WindowedForecast.iterAux w rest
      .ok (a :: l)

/-- Core `WindowedForecast.__iter__`: the windows at offsets `0 .. len-1`. -/
def WindowedForecast.iter (w : WindowedForecast) :
    Except PyErr (List CarbonIntensityWindow) := do
  let n ← w.len
  WindowedForecast.iterAux w (List.range n.toNat)

/-- The sort key of `@dataclass(order=True)` on `CarbonIntensityWindow`:
lexicographic comparison of the field tuple
`(value, start, end, start_value, end_value)`. -/
def CarbonIntensityWindow.key (a : CarbonIntensityWindow) :
    ℚ ×ₗ ℚ ×ₗ ℚ ×ₗ ℚ ×ₗ ℚ :=
  toLex (a.value, toLex (a.start, toLex (a.«end», toLex (a.start_value, a.end_value))))

/-- Python `min(iterable)`: keeps the current minimum, replacing it only when
a later item compares strictly less. -/
def pyMin (l : List CarbonIntensityWindow) : Option CarbonIntensityWindow :=
  match l with
  | [] => none
  | x :: xs =>
      some (xs.foldl (fun b y => if y.key < b.key then y else b) x)

end core

namespace scheduler

/-- `JobStatus` from src/core/job_queue.py. -/
inductive JobStatus where
  | pending
  | scheduled
  | running
  | completed
  | deferred
  | cancelled
  deriving DecidableEq, Repr

/-- The fields of `GPUJob` (src/core/job_queue.py) that the scheduling loop
reads or writes.  `scheduled_for` holds an instant (seconds), `none` before
any scheduling decision. -/
structure GPUJob where
  job_id : ℕ
  duration_minutes : ℤ
  priority : ℤ
  status : JobStatus
  carbon_intensity_threshold : ℚ
  scheduled_for : Option ℚ
  deriving DecidableEq, Repr

/-- The per-job body of the loop in
`CarbonAwareScheduler.schedule_pending_jobs` (src/core/carbon_scheduler.py).
`carbon_intensity` is the current grid intensity, `now` the current instant,
and `best` the outcome of `get_best_start_time` for this job (its forecast
input is produced by a random generator, so it enters as a parameter; any
raised exception is the `.error` case, caught by the bare `except`). -/
def decideJob (carbon_intensity : ℚ) (now : ℚ) (best : Except PyErr ℚ)
    (job : GPUJob) : GPUJob :=
  if carbon_intensity < job.carbon_intensity_threshold then
    { job with status := JobStatus.scheduled, scheduled_for := some now }
  else
    let t : ℚ :=
      match best with
      | .ok t => t
      | .error _ => now + 6 * 3600
    { job with status := JobStatus.deferred, scheduled_for := some t }

/-- One iteration of the loop of `schedule_pending_jobs`: decide the job and
append the updated job object to the scheduled or the deferred list. -/
def scheduleStep (carbon_intensity : ℚ) (now : ℚ)
    (best : GPUJob → Except PyErr ℚ) (acc : List GPUJob × List GPUJob)
    (job : GPUJob) : List GPUJob × List GPUJob :=
  let j := decideJob carbon_intensity now (best job) job
  if carbon_intensity < job.carbon_intensity_threshold then
    (acc.1 ++ [j], acc.2)
  else
    (acc.1, acc.2 ++ [j])

/-- The loop of `CarbonAwareScheduler.schedule_pending_jobs`: every pending
job is decided in order and appended to the scheduled or the deferred list
(the updated job object is the one held by those lists). -/
def schedule_pending_jobs (carbon_intensity : ℚ) (now : ℚ)
    (best : GPUJob → Except PyErr ℚ) (pending : List GPUJob) :
    List GPUJob × List GPUJob :=
  pending.foldl (scheduleStep carbon_intensity now best) ([], [])

end scheduler

namespace carbonFootprint

/-- The `Estimates` namedtuple of src/cats/carbonFootprint.py. -/
structure Estimates where
  now : ℚ
  best : ℚ
  savings : ℚ
  deriving DecidableEq, Repr

/-- `get_footprint_reduction_estimate` (src/cats/carbonFootprint.py).
`runtime` is the job runtime in seconds; `jobinfo` lists
`(num_units, power_watts)` pairs. -/
def get_footprint_reduction_estimate (PUE : ℚ) (jobinfo : List (ℤ × ℚ))
    (runtime : ℚ) (average_best_ci : ℚ) (average_now_ci : ℚ) : Estimates :=
  let energy := PUE * (runtime / 3600)
      * ((jobinfo.map (fun p => (p.1 : ℚ) * p.2)).sum) / 1000
  let best := energy * average_best_ci
  let now := energy * average_now_ci
  { now := now, best := best, savings := now - best }

end carbonFootprint

/-! ### Concrete scenario data used by the claims -/

/-- The two-sample scenario of the spec: value 100 at minute 0 and value 200
at minute 30 (times in seconds). -/
def twoSampleData : List cats.CarbonIntensityPointEstimate :=
  [⟨100, 0⟩, ⟨200, 1800⟩]

/-- Four uniformly spaced samples, 30 minutes apart. -/
def fourSampleData : List cats.CarbonIntensityPointEstimate :=
  [⟨100, 0⟩, ⟨200, 1800⟩, ⟨300, 3600⟩, ⟨400, 5400⟩]

/-- The cats `WindowedForecast` state obtained from `fourSampleData` with
duration 30 minutes, start 0 and no constraints. -/
def wfFour : cats.WindowedForecast :=
  ⟨30, none, none, 1800, 0, 1800, fourSampleData, 1⟩

/-! ### Generic lemmas about the embedded Python primitives -/

theorem ok_bind {ε α β : Type} (a : α) (f : α → Except ε β) :
    (Except.ok a >>= f) = f a := rfl

theorem error_bind {ε α β : Type} (e : ε) (f : α → Except ε β) :
    ((Except.error e : Except ε α) >>= f) = Except.error e := rfl

theorem bind_eq_ok {ε α β : Type} {x : Except ε α} {f : α → Except ε β} {b : β} :
    (x >>= f) = Except.ok b ↔ ∃ a, x = Except.ok a ∧ f a = Except.ok b := by
  cases x <;> simp [Bind.bind, Except.bind]

/-! ### C1, C5, C6, C9: concrete scenarios and the footprint estimator -/

/-- C1 counterexample: on samples (0 min, 100) and (30 min, 200) with
duration 15 min and start 0, `get(0)` of the cats `WindowedForecast` returns
the window average 125 — the trapezoidal average of the interpolated line
over [0, 15 min] — not 150 as the claim states. -/
theorem c1_get0_value_is_125_not_150 :
    ((cats.WindowedForecast.init twoSampleData 15 0 none none).bind
      (fun w => w.getitem 0))
      = Except.ok ⟨125, 0, 900, 100, 150⟩ ∧ (125 : ℚ) ≠ 150 := by
  refine ⟨?_, by norm_num⟩
  norm_num [cats.WindowedForecast.init, cats.WindowedForecast.getitem,
    cats.WindowedForecast.len, cats.WindowedForecast.window_points,
    cats.WindowedForecast.interp, cats.filter_data_by_constraints,
    cats.bisect_right, cats.bisect_left, cats.trapzAcc, twoSampleData,
    pyGetE, pyGet, pyIdx, pySlice, pySliceFrom, pySliceBound, pyDiv, pyInt,
    findFirstIdx, Bind.bind, Except.bind]

/-- C1 (amended): on samples (0 min, 100) and (30 min, 200) with duration
15 min and start 0, `get(0)` returns a window with value 125 (the
time-weighted average of the straight line from 100 to 200 over [0, 15 min],
i.e. its value at minute 7.5), start = minute 0 and end = minute 15, with
boundary values 100 and 150. -/
theorem c1_get0_scenario :
    ((cats.WindowedForecast.init twoSampleData 15 0 none none).bind
      (fun w => w.getitem 0))
      = Except.ok ⟨125, 0, 900, 100, 150⟩ := by
  norm_num [cats.WindowedForecast.init, cats.WindowedForecast.getitem,
    cats.WindowedForecast.len, cats.WindowedForecast.window_points,
    cats.WindowedForecast.interp, cats.filter_data_by_constraints,
    cats.bisect_right, cats.bisect_left, cats.trapzAcc, twoSampleData,
    pyGetE, pyGet, pyIdx, pySlice, pySliceFrom, pySliceBound, pyDiv, pyInt,
    findFirstIdx, Bind.bind, Except.bind]

/-- C5: the two `WindowedForecast` implementations are not equivalent.  On
the same two samples (minute 0 value 100, minute 30 value 200), duration
15 min and start 0, the simplified core variant returns the plain mean of
the raw in-window samples (only the sample at minute 0, so 100), while the
interpolating cats variant returns 125; the two window values differ. -/
theorem c5_core_and_cats_disagree :
    ((core.WindowedForecast.init [⟨100, 0⟩, ⟨200, 1800⟩] 15 0 none).bind
        (fun w => w.getitem 0)).map (fun a => a.value) = Except.ok 100 ∧
    ((cats.WindowedForecast.init twoSampleData 15 0 none none).bind
        (fun w => w.getitem 0)).map (fun a => a.value) = Except.ok 125 ∧
    (100 : ℚ) ≠ 125 := by
  refine ⟨?_, ?_, by norm_num⟩
  · norm_num [core.WindowedForecast.init, core.WindowedForecast.getitem,
    core.WindowedForecast.len, core.orDefault2820,
    pyGetE, pyGet, pyIdx, pySlice, pySliceBound, pyDiv, pyInt,
    Bind.bind, Except.bind, Except.map]
  · norm_num [cats.WindowedForecast.init, cats.WindowedForecast.getitem,
    cats.WindowedForecast.len, cats.WindowedForecast.window_points,
    cats.WindowedForecast.interp, cats.filter_data_by_constraints,
    cats.bisect_right, cats.bisect_left, cats.trapzAcc, twoSampleData,
    pyGetE, pyGet, pyIdx, pySlice, pySliceFrom, pySliceBound, pyDiv, pyInt,
    findFirstIdx, Bind.bind, Except.bind, Except.map]

/-- C6 counterexample: constructed from exactly one sample with *no*
lookahead cap and *no* deadline, the cats `WindowedForecast` fails with the
`IndexError` raised by `filtered_data[1]`, not with the
"Insufficient forecast data" `ValueError` the claim requires in that case. -/
theorem c6_one_sample_no_constraints_is_index_error :
    cats.WindowedForecast.init [⟨100, 0⟩] 60 0 none none
      = Except.error (PyErr.indexError "list index out of range") ∧
    PyErr.indexError "list index out of range"
      ≠ PyErr.valueError
          "Insufficient forecast data for the specified time window constraints." := by
  refine ⟨?_, by simp⟩
  norm_num [cats.WindowedForecast.init, cats.WindowedForecast.getitem,
    cats.WindowedForecast.len, cats.WindowedForecast.window_points,
    cats.WindowedForecast.interp, cats.filter_data_by_constraints,
    cats.bisect_right, cats.bisect_left, cats.trapzAcc, twoSampleData,
    pyGetE, pyGet, pyIdx, pySlice, pySliceFrom, pySliceBound, pyDiv, pyInt,
    findFirstIdx, Bind.bind, Except.bind]

/-- C6 (amended): constructed from exactly one sample, the cats
`WindowedForecast` always fails; it fails with the
"Insufficient forecast data" `ValueError` whenever a lookahead cap or a
deadline is given, and with an `IndexError` (from `filtered_data[1]`) when
neither is given. -/
theorem c6_one_sample_always_fails :
    (∀ (p : cats.CarbonIntensityPointEstimate) (duration : ℤ) (start : ℚ)
       (mw : Option ℤ) (ec : Option ℚ), mw.isSome ∨ ec.isSome →
       cats.WindowedForecast.init [p] duration start mw ec
         = Except.error (PyErr.valueError
             "Insufficient forecast data for the specified time window constraints.")) ∧
    (∀ (p : cats.CarbonIntensityPointEstimate) (duration : ℤ) (start : ℚ),
       cats.WindowedForecast.init [p] duration start none none
         = Except.error (PyErr.indexError "list index out of range")) := by
  constructor
  · intro p duration start mw ec h
    have hc : (mw.isSome || ec.isSome) = true := by
      rcases h with h | h <;> simp [h]
    simp only [cats.WindowedForecast.init, if_pos hc]
    simp only [cats.filter_data_by_constraints]
    split
    · rw [error_bind]
    · rename_i hlen
      exfalso
      revert hlen
      simp only [List.takeWhile]
      split <;> simp
  · intro p duration start
    simp [cats.WindowedForecast.init, pyGetE, pyGet, pyIdx, Bind.bind, Except.bind]

/-- C6 witness: the amended failure modes at concrete inputs. -/
theorem c6_one_sample_always_fails_witness :
    cats.WindowedForecast.init [⟨100, 0⟩] 60 0 (some 120) none
      = Except.error (PyErr.valueError
          "Insufficient forecast data for the specified time window constraints.") ∧
    cats.WindowedForecast.init [⟨100, 0⟩] 60 0 none none
      = Except.error (PyErr.indexError "list index out of range") :=
  ⟨c6_one_sample_always_fails.1 ⟨100, 0⟩ 60 0 (some 120) none (Or.inl rfl),
   c6_one_sample_always_fails.2 ⟨100, 0⟩ 60 0⟩

/-- C9: `get_footprint_reduction_estimate` returns
`(nowMass, bestMass, savings)` with
`energy = PUE · (runtimeSeconds/3600) · Σ(units·wattsPerUnit)/1000`,
`nowMass = energy · avgNowIntensity`, `bestMass = energy · avgBestIntensity`
and `savings = nowMass − bestMass`; savings is not clamped and is negative
whenever the "best" intensity exceeds the "now" intensity and energy is
positive. -/
theorem c9_footprint_reduction_estimate :
    ∀ (PUE : ℚ) (jobinfo : List (ℤ × ℚ)) (runtime best_ci now_ci : ℚ),
    (carbonFootprint.get_footprint_reduction_estimate PUE jobinfo runtime
        best_ci now_ci).now
      = PUE * (runtime / 3600) * ((jobinfo.map (fun p => (p.1 : ℚ) * p.2)).sum)
          / 1000 * now_ci ∧
    (carbonFootprint.get_footprint_reduction_estimate PUE jobinfo runtime
        best_ci now_ci).best
      = PUE * (runtime / 3600) * ((jobinfo.map (fun p => (p.1 : ℚ) * p.2)).sum)
          / 1000 * best_ci ∧
    (carbonFootprint.get_footprint_reduction_estimate PUE jobinfo runtime
        best_ci now_ci).savings
      = (carbonFootprint.get_footprint_reduction_estimate PUE jobinfo runtime
          best_ci now_ci).now
        - (carbonFootprint.get_footprint_reduction_estimate PUE jobinfo runtime
            best_ci now_ci).best ∧
    (0 < PUE * (runtime / 3600) * ((jobinfo.map (fun p => (p.1 : ℚ) * p.2)).sum)
          / 1000 →
     now_ci < best_ci →
     (carbonFootprint.get_footprint_reduction_estimate PUE jobinfo runtime
         best_ci now_ci).savings < 0) := by
  intro PUE jobinfo runtime best_ci now_ci
  refine ⟨rfl, rfl, rfl, ?_⟩
  intro he hlt
  simp only [carbonFootprint.get_footprint_reduction_estimate]
  have := mul_lt_mul_of_pos_left hlt he
  linarith

/-- C9 witness: with PUE 1, one unit of 1000 W, one hour runtime, best
intensity 200 and now intensity 100, the savings are negative. -/
theorem c9_footprint_reduction_estimate_witness :
    (carbonFootprint.get_footprint_reduction_estimate 1 [(1, 1000)] 3600
        200 100).savings < 0 :=
  (c9_footprint_reduction_estimate 1 [(1, 1000)] 3600 200 100).2.2.2
    (by norm_num) (by norm_num)

/-- `max_window_minutes or 2820` never yields 0. -/
theorem orDefault2820_ne_zero (x : Option ℤ) : core.orDefault2820 x ≠ 0 := by
  rcases x with _ | m
  · simp [core.orDefault2820]
  · simp only [core.orDefault2820]
    split
    · simp
    · assumption

/-- C10: the simplified core `WindowedForecast` clamps its length with
`max(1, ...)`, so every successfully constructed instance reports at least
one window; and when no sample timestamp falls inside a requested window and
the positional fallback slice is empty as well, `get` returns an all-zero
window instead of failing. -/
theorem c10_core_len_clamp_and_zero_window :
    (∀ (data : List core.CarbonIntensityPoint) (duration : ℤ) (start : ℚ)
       (mw : Option ℤ) (w : core.WindowedForecast),
       core.WindowedForecast.init data duration start mw = Except.ok w →
       ∃ n, w.len = Except.ok n ∧ 1 ≤ n) ∧
    (∀ (w : core.WindowedForecast) (n index : ℤ),
       w.len = Except.ok n → index < n →
       (∀ d ∈ w.data, ¬(w.start + index * w.data_stepsize ≤ d.datetime ∧
           d.datetime ≤ w.start + index * w.data_stepsize + 60 * (w.duration : ℚ))) →
       pySlice w.data index (index + w.ndata) = [] →
       w.getitem index = Except.ok ⟨0, w.start + index * w.data_stepsize,
         w.start + index * w.data_stepsize + 60 * (w.duration : ℚ), 0, 0⟩) := by
  constructor
  · intro data duration start mw w hinit
    simp only [core.WindowedForecast.init, bind_eq_ok] at hinit
    obtain ⟨q, hq, hw⟩ := hinit
    simp only [pyDiv] at hq
    split at hq
    · exact absurd hq (by simp)
    · rename_i hstep
      have hw2 := Except.ok.inj hw
      subst hw2
      simp only [core.WindowedForecast.len, pyDiv]
      rw [if_pos (orDefault2820_ne_zero mw), if_neg hstep, ok_bind, ok_bind]
      exact ⟨_, rfl, le_max_left 1 _⟩
  · intro w n index hlen hidx hout hslice
    have hfil : w.data.filter
        (fun d => decide (w.start + index * w.data_stepsize ≤ d.datetime) &&
          decide (d.datetime ≤ w.start + index * w.data_stepsize
            + 60 * (w.duration : ℚ))) = [] := by
      rw [List.filter_eq_nil_iff]
      intro d hd
      have := hout d hd
      simp only [Bool.and_eq_true, decide_eq_true_eq]
      tauto
    simp only [core.WindowedForecast.getitem, hlen, ok_bind]
    rw [if_neg (not_le.mpr hidx)]
    rw [hfil]
    simp [hslice]

/-- C10 witness: from an empty sample list the core forecast still reports
one window, and that window is the all-zero fallback. -/
theorem c10_core_len_clamp_and_zero_window_witness :
    (∃ n, (⟨30, 2820, 1800, 0, 1800, [], 2⟩ : core.WindowedForecast).len
        = Except.ok n ∧ 1 ≤ n) ∧
    (⟨30, 2820, 1800, 0, 1800, [], 2⟩ : core.WindowedForecast).getitem 0
      = Except.ok ⟨0, 0 + 0 * 1800, 0 + 0 * 1800 + 60 * (((30 : ℤ)) : ℚ), 0, 0⟩ := by
  constructor
  · exact c10_core_len_clamp_and_zero_window.1 [] 30 0 none _
      (by norm_num [core.WindowedForecast.init, core.orDefault2820, pyDiv, pyInt, Bind.bind, Except.bind])
  · exact c10_core_len_clamp_and_zero_window.2 _ 1 0
      (by norm_num [core.WindowedForecast.len, pyDiv, pyInt, Bind.bind, Except.bind])
      (by norm_num) (by simp) (by simp [pySlice, pySliceBound])

/-- Jobs already placed in either output list stay there while the loop
processes further jobs. -/
theorem scheduleStep_foldl_mono (carbon_intensity now : ℚ)
    (best : scheduler.GPUJob → Except PyErr ℚ) :
    ∀ (l : List scheduler.GPUJob) (acc : List scheduler.GPUJob × List scheduler.GPUJob)
      (x : scheduler.GPUJob),
      (x ∈ acc.1 → x ∈ (l.foldl (scheduler.scheduleStep carbon_intensity now best) acc).1) ∧
      (x ∈ acc.2 → x ∈ (l.foldl (scheduler.scheduleStep carbon_intensity now best) acc).2) := by
  intro l
  induction l with
  | nil => intro acc x; exact ⟨id, id⟩
  | cons a l ih =>
    intro acc x
    constructor
    · intro hx
      simp only [List.foldl_cons]
      refine (ih _ x).1 ?_
      simp only [scheduler.scheduleStep]
      split
      · exact List.mem_append_left _ hx
      · exact hx
    · intro hx
      simp only [List.foldl_cons]
      refine (ih _ x).2 ?_
      simp only [scheduler.scheduleStep]
      split
      · exact hx
      · exact List.mem_append_left _ hx

/-- Every pending job lands, updated, in the output list selected by the
threshold test. -/
theorem sched_mem (carbon_intensity now : ℚ)
    (best : scheduler.GPUJob → Except PyErr ℚ) :
    ∀ (l : List scheduler.GPUJob) (acc : List scheduler.GPUJob × List scheduler.GPUJob)
      (job : scheduler.GPUJob), job ∈ l →
      (carbon_intensity < job.carbon_intensity_threshold →
        scheduler.decideJob carbon_intensity now (best job) job
          ∈ (l.foldl (scheduler.scheduleStep carbon_intensity now best) acc).1) ∧
      (¬ carbon_intensity < job.carbon_intensity_threshold →
        scheduler.decideJob carbon_intensity now (best job) job
          ∈ (l.foldl (scheduler.scheduleStep carbon_intensity now best) acc).2) := by
  intro l
  induction l with
  | nil => intro acc job h; cases h
  | cons a l ih =>
    intro acc job hmem
    rcases List.mem_cons.mp hmem with rfl | hmem
    · constructor
      · intro hlt
        simp only [List.foldl_cons]
        refine (scheduleStep_foldl_mono carbon_intensity now best l _ _).1 ?_
        simp only [scheduler.scheduleStep, if_pos hlt]
        exact List.mem_append_right _ (List.mem_singleton.mpr rfl)
      · intro hge
        simp only [List.foldl_cons]
        refine (scheduleStep_foldl_mono carbon_intensity now best l _ _).2 ?_
        simp only [scheduler.scheduleStep, if_neg hge]
        exact List.mem_append_right _ (List.mem_singleton.mpr rfl)
    · exact ih _ job hmem

/-- C8: for every pending job, if the current grid intensity is strictly
below the job's threshold it is marked scheduled for now and placed in the
scheduled list; otherwise it is marked deferred and placed in the deferred
list, with its start taken from the best-window search when that succeeds
and set to now + 6 hours when the search fails with any error. -/
theorem c8_schedule_pending_jobs_decision :
    ∀ (carbon_intensity now : ℚ) (best : scheduler.GPUJob → Except PyErr ℚ)
      (pending : List scheduler.GPUJob) (job : scheduler.GPUJob),
      job ∈ pending →
      (carbon_intensity < job.carbon_intensity_threshold →
        scheduler.decideJob carbon_intensity now (best job) job
          ∈ (scheduler.schedule_pending_jobs carbon_intensity now best pending).1 ∧
        (scheduler.decideJob carbon_intensity now (best job) job).status
          = scheduler.JobStatus.scheduled ∧
        (scheduler.decideJob carbon_intensity now (best job) job).scheduled_for
          = some now) ∧
      (¬ carbon_intensity < job.carbon_intensity_threshold →
        scheduler.decideJob carbon_intensity now (best job) job
          ∈ (scheduler.schedule_pending_jobs carbon_intensity now best pending).2 ∧
        (scheduler.decideJob carbon_intensity now (best job) job).status
          = scheduler.JobStatus.deferred ∧
        (∀ t, best job = Except.ok t →
          (scheduler.decideJob carbon_intensity now (best job) job).scheduled_for
            = some t) ∧
        (∀ e, best job = Except.error e →
          (scheduler.decideJob carbon_intensity now (best job) job).scheduled_for
            = some (now + 6 * 3600))) := by
  intro carbon_intensity now best pending job hmem
  constructor
  · intro hlt
    refine ⟨(sched_mem carbon_intensity now best pending _ job hmem).1 hlt, ?_, ?_⟩
    · simp [scheduler.decideJob, if_pos hlt]
    · simp [scheduler.decideJob, if_pos hlt]
  · intro hge
    refine ⟨(sched_mem carbon_intensity now best pending _ job hmem).2 hge, ?_, ?_, ?_⟩
    · simp [scheduler.decideJob, if_neg hge]
    · intro t ht
      simp [scheduler.decideJob, if_neg hge, ht]
    · intro e he
      simp [scheduler.decideJob, if_neg hge, he]

/-- C8 witness: a two-job queue at grid intensity 250 — the threshold-400 job
is scheduled for now, the threshold-200 job is deferred with the 6-hour
fallback because the best-window search errors. -/
theorem c8_schedule_pending_jobs_decision_witness :
    (scheduler.decideJob 250 0 (Except.error PyErr.zeroDivisionError)
        ⟨1, 60, 1, scheduler.JobStatus.pending, 400, none⟩
      ∈ (scheduler.schedule_pending_jobs 250 0 (fun _ => Except.error PyErr.zeroDivisionError)
          [⟨1, 60, 1, scheduler.JobStatus.pending, 400, none⟩,
           ⟨2, 60, 1, scheduler.JobStatus.pending, 200, none⟩]).1 ∧
      (scheduler.decideJob 250 0 (Except.error PyErr.zeroDivisionError)
        ⟨1, 60, 1, scheduler.JobStatus.pending, 400, none⟩).scheduled_for = some 0) ∧
    (scheduler.decideJob 250 0 (Except.error PyErr.zeroDivisionError)
        ⟨2, 60, 1, scheduler.JobStatus.pending, 200, none⟩
      ∈ (scheduler.schedule_pending_jobs 250 0 (fun _ => Except.error PyErr.zeroDivisionError)
          [⟨1, 60, 1, scheduler.JobStatus.pending, 400, none⟩,
           ⟨2, 60, 1, scheduler.JobStatus.pending, 200, none⟩]).2 ∧
      (scheduler.decideJob 250 0 (Except.error PyErr.zeroDivisionError)
        ⟨2, 60, 1, scheduler.JobStatus.pending, 200, none⟩).scheduled_for
        = some (0 + 6 * 3600)) := by
  constructor
  · have h := (c8_schedule_pending_jobs_decision 250 0
      (fun _ => Except.error PyErr.zeroDivisionError)
      [⟨1, 60, 1, scheduler.JobStatus.pending, 400, none⟩,
       ⟨2, 60, 1, scheduler.JobStatus.pending, 200, none⟩]
      ⟨1, 60, 1, scheduler.JobStatus.pending, 400, none⟩
      (by simp)).1 (by norm_num)
    exact ⟨h.1, h.2.2⟩
  · have h := (c8_schedule_pending_jobs_decision 250 0
      (fun _ => Except.error PyErr.zeroDivisionError)
      [⟨1, 60, 1, scheduler.JobStatus.pending, 400, none⟩,
       ⟨2, 60, 1, scheduler.JobStatus.pending, 200, none⟩]
      ⟨2, 60, 1, scheduler.JobStatus.pending, 200, none⟩
      (by simp)).2 (by norm_num)
    exact ⟨h.1, h.2.2.2 PyErr.zeroDivisionError rfl⟩

/-- The running minimum kept by Python's `min`: the fold result is an element
of the scanned prefix (or the seed) and its sort key is a lower bound. -/
theorem pyMin_foldl_spec :
    ∀ (l : List core.CarbonIntensityWindow) (b : core.CarbonIntensityWindow),
      ((l.foldl (fun b y => if y.key < b.key then y else b) b) = b ∨
        (l.foldl (fun b y => if y.key < b.key then y else b) b) ∈ l) ∧
      (l.foldl (fun b y => if y.key < b.key then y else b) b).key ≤ b.key ∧
      ∀ y ∈ l, (l.foldl (fun b y => if y.key < b.key then y else b) b).key ≤ y.key := by
  intro l
  induction l with
  | nil => intro b; exact ⟨Or.inl rfl, le_refl _, by simp⟩
  | cons a l ih =>
    intro b
    obtain ⟨hmem, hle, hall⟩ := ih (if a.key < b.key then a else b)
    simp only [List.foldl_cons]
    refine ⟨?_, ?_, ?_⟩
    · rcases hmem with h | h
      · rw [h]
        split
        · exact Or.inr (List.mem_cons_self a l)
        · exact Or.inl rfl
      · exact Or.inr (List.mem_cons_of_mem a h)
    · refine le_trans hle ?_
      split
      · exact le_of_lt (by assumption)
      · exact le_refl _
    · intro y hy
      rcases List.mem_cons.mp hy with rfl | hy
      · refine le_trans hle ?_
        split
        · exact le_refl _
        · exact le_of_not_lt (by assumption)
      · exact hall y hy

/-- Python `min` over window records returns an element whose sort key is
minimal. -/
theorem pyMin_spec (l : List core.CarbonIntensityWindow)
    (m : core.CarbonIntensityWindow) (h : core.pyMin l = some m) :
    m ∈ l ∧ ∀ x ∈ l, m.key ≤ x.key := by
  rcases l with _ | ⟨x, xs⟩
  · exact absurd h (by simp [core.pyMin])
  · have hm : xs.foldl (fun b y => if y.key < b.key then y else b) x = m := by
      simpa [core.pyMin] using h
    obtain ⟨hmem, hle, hall⟩ := pyMin_foldl_spec xs x
    rw [hm] at hmem hle hall
    refine ⟨?_, ?_⟩
    · rcases hmem with rfl | hmem
      · exact List.mem_cons_self _ _
      · exact List.mem_cons_of_mem _ hmem
    · intro y hy
      rcases List.mem_cons.mp hy with rfl | hy
      · exact hle
      · exact hall y hy

/-- C4: selecting the best window with Python `min` over the iterated window
sequence returns a member of the sequence with minimum value, and whenever
another window ties on value the returned one has the earlier (or equal)
start, because the `order=True` comparison is lexicographic on
`(value, start, end, start_value, end_value)`. -/
theorem c4_min_window_value_and_tiebreak :
    ∀ (w : core.WindowedForecast) (ws : List core.CarbonIntensityWindow)
      (m : core.CarbonIntensityWindow),
      w.iter = Except.ok ws → core.pyMin ws = some m →
      m ∈ ws ∧ ∀ x ∈ ws, m.value ≤ x.value ∧ (x.value = m.value → m.start ≤ x.start) := by
  intro w ws m _ hmin
  obtain ⟨hmem, hkey⟩ := pyMin_spec ws m hmin
  refine ⟨hmem, ?_⟩
  intro x hx
  have h := hkey x hx
  simp only [core.CarbonIntensityWindow.key, Prod.Lex.le_iff] at h
  constructor
  · rcases h with h | ⟨h1, _⟩
    · exact le_of_lt h
    · exact le_of_eq h1
  · intro hveq
    rcases h with h | ⟨_, h2⟩
    · rw [hveq] at h
      exact absurd h (lt_irrefl _)
    · rcases h2 with h2 | ⟨h2, _⟩
      · exact le_of_lt h2
      · exact le_of_eq h2

/-- C4 witness: a flat three-sample forecast yields two windows tied on
value 100; `min` picks a member with minimal value and the earlier start. -/
theorem c4_min_window_value_and_tiebreak_witness :
    (⟨100, 0, 1800, 100, 100⟩ : core.CarbonIntensityWindow)
      ∈ [(⟨100, 0, 1800, 100, 100⟩ : core.CarbonIntensityWindow),
         ⟨100, 1800, 3600, 100, 100⟩] ∧
    (100 : ℚ) ≤ 100 ∧ (0 : ℚ) ≤ 1800 := by
  have hiter : (⟨30, 2820, 1800, 0, 1800, [⟨100, 0⟩, ⟨100, 1800⟩, ⟨100, 3600⟩], 2⟩ :
      core.WindowedForecast).iter
      = Except.ok [⟨100, 0, 1800, 100, 100⟩, ⟨100, 1800, 3600, 100, 100⟩] := by
    norm_num [core.WindowedForecast.iter, core.WindowedForecast.iterAux,
      core.WindowedForecast.getitem, core.WindowedForecast.len, List.range_succ,
      pyGetE, pyGet, pyIdx, pySlice, pySliceBound, pyDiv, pyInt,
      Bind.bind, Except.bind]
  have hnot : ¬ ((⟨100, 1800, 3600, 100, 100⟩ : core.CarbonIntensityWindow).key
      < (⟨100, 0, 1800, 100, 100⟩ : core.CarbonIntensityWindow).key) := by
    norm_num [core.CarbonIntensityWindow.key, Prod.Lex.lt_iff]
  have hmin : core.pyMin [(⟨100, 0, 1800, 100, 100⟩ : core.CarbonIntensityWindow),
      ⟨100, 1800, 3600, 100, 100⟩] = some ⟨100, 0, 1800, 100, 100⟩ := by
    simp only [core.pyMin, List.foldl, if_neg hnot]
  have h := c4_min_window_value_and_tiebreak _ _ _ hiter hmin
  have h2 := h.2 ⟨100, 1800, 3600, 100, 100⟩ (by simp)
  exact ⟨h.1, h2.1, h2.2 rfl⟩

/-- A found index is inside the list. -/
theorem findFirstIdx_some_lt {α : Type} {p : α → Bool} :
    ∀ {l : List α} {i : ℕ}, findFirstIdx p l = some i → i < l.length := by
  intro l
  induction l with
  | nil => intro i h; exact absurd h (by simp [findFirstIdx])
  | cons a l ih =>
    intro i h
    simp only [findFirstIdx] at h
    split at h
    · cases h
      exact Nat.succ_pos _
    · rcases Option.map_eq_some'.mp h with ⟨j, hj, rfl⟩
      exact Nat.succ_lt_succ (ih hj)

/-- Python indexing with a nonnegative in-range index. -/
theorem pyGetE_ok_of_nonneg {α : Type} {xs : List α} {i : ℤ} (h0 : 0 ≤ i)
    (h : i.toNat < xs.length) :
    pyGetE xs i = Except.ok (xs.get ⟨i.toNat, h⟩) := by
  have hi : i < (xs.length : ℤ) := by omega
  simp only [pyGetE, pyGet, pyIdx, if_pos h0, if_pos hi, Option.bind]
  rw [List.get?_eq_get h]

/-- Python `xs[-1]` on a list of the shape `[l] ++ mid ++ [r]` yields `r`. -/
theorem pyGetE_shape_neg_one {α : Type} (l r : α) (mid : List α) :
    pyGetE ([l] ++ mid ++ [r]) (-1) = Except.ok r := by
  have hlen : ([l] ++ mid ++ [r]).length = mid.length + 2 := by simp
  have h0 : ¬ (0 : ℤ) ≤ -1 := by omega
  have h1 : (0 : ℤ) ≤ -1 + (([l] ++ mid ++ [r]).length : ℤ) := by
    rw [hlen]; push_cast; omega
  simp only [pyGetE, pyGet, pyIdx, if_neg h0, if_pos h1, Option.bind]
  have h2 : (-1 + (([l] ++ mid ++ [r]).length : ℤ)).toNat = ([l] ++ mid).length := by
    simp only [hlen, List.length_append, List.length_singleton]
    omega
  rw [h2]
  have h3 : [l] ++ mid ++ [r] = ([l] ++ mid) ++ [r] := by simp
  rw [h3, List.get?_concat_length]


/-- Python `xs[0]` on a list of the shape `[l] ++ mid ++ [r]` yields `l`. -/
theorem pyGetE_shape_zero {α : Type} (l r : α) (mid : List α) :
    pyGetE ([l] ++ mid ++ [r]) 0 = Except.ok l := by
  have h1 : (0 : ℤ) < (([l] ++ mid ++ [r]).length : ℤ) := by
    simp only [List.length_append, List.length_singleton]
    push_cast
    omega
  simp only [pyGetE, pyGet, pyIdx, if_pos (le_refl (0 : ℤ)), if_pos h1,
    Option.bind, Int.toNat_zero]
  simp [List.get?]

/-- Forward evaluation of `interp` when the two samples have distinct
timestamps. -/
theorem interp_ok_of_ne {p1 p2 : cats.CarbonIntensityPointEstimate} {t : ℚ}
    (h : p2.datetime - p1.datetime ≠ 0) :
    cats.WindowedForecast.interp p1 p2 t
      = Except.ok ⟨p1.value + (p2.value - p1.value) / (p2.datetime - p1.datetime)
          * (t - p1.datetime), t⟩ := by
  simp only [cats.WindowedForecast.interp, pyDiv, if_neg h, ok_bind]

/-- Whatever `interp` returns carries the requested timestamp. -/
theorem interp_ok_datetime {p1 p2 : cats.CarbonIntensityPointEstimate} {t : ℚ}
    {r : cats.CarbonIntensityPointEstimate}
    (h : cats.WindowedForecast.interp p1 p2 t = Except.ok r) : r.datetime = t := by
  simp only [cats.WindowedForecast.interp, bind_eq_ok] at h
  obtain ⟨s, _, h⟩ := h
  have := Except.ok.inj h
  rw [← this]

/-- Inversion of a successful cats `WindowedForecast.__init__`: the stored
start/end instants, a positive `ndata`, and the fact that the working sample
list is a sublist of the input data. -/
theorem init_ok_fields {data : List cats.CarbonIntensityPointEstimate}
    {duration : ℤ} {start : ℚ} {mw : Option ℤ} {ec : Option ℚ}
    {w : cats.WindowedForecast}
    (h : cats.WindowedForecast.init data duration start mw ec = Except.ok w) :
    w.start = start ∧ w.«end» = start + 60 * (duration : ℚ) ∧
    w.duration = duration ∧ 1 ≤ w.ndata ∧ List.Sublist w.data data := by
  simp only [cats.WindowedForecast.init] at h
  split at h
  · simp only [bind_eq_ok] at h
    obtain ⟨fd, hfd, h⟩ := h
    obtain ⟨p1, _, h⟩ := h
    obtain ⟨p0, _, h⟩ := h
    obtain ⟨nd, hnd, h⟩ := h
    have hw := Except.ok.inj h
    subst hw
    have hsub1 : List.Sublist fd data := by
      simp only [cats.filter_data_by_constraints] at hfd
      split at hfd
      · exact absurd hfd (by simp)
      · have := Except.ok.inj hfd
        rw [← this]
        exact List.takeWhile_sublist _
    have hnd1 : 1 ≤ nd := by
      simp only [cats.bisect_left] at hnd
      split at hnd
      · have := Except.ok.inj hnd
        omega
      · exact absurd hnd (by simp)
    exact ⟨rfl, rfl, rfl, hnd1,
      List.Sublist.trans (List.drop_sublist _ _) hsub1⟩
  · simp only [ok_bind, bind_eq_ok] at h
    obtain ⟨p1, _, h⟩ := h
    obtain ⟨p0, _, h⟩ := h
    obtain ⟨nd, hnd, h⟩ := h
    have hw := Except.ok.inj h
    subst hw
    have hnd1 : 1 ≤ nd := by
      simp only [cats.bisect_left] at hnd
      split at hnd
      · have := Except.ok.inj hnd
        omega
      · exact absurd hnd (by simp)
    exact ⟨rfl, rfl, rfl, hnd1, List.drop_sublist _ _⟩

/-- Inversion of a successful cats `__len__`: any valid window offset is
strictly below `len(data) - ndata`. -/
theorem len_ok_bound {w : cats.WindowedForecast} {n i : ℤ}
    (h : w.len = Except.ok n) (h0 : 0 ≤ i) (hlt : i < n) :
    i < (w.data.length : ℤ) - (w.ndata : ℤ) := by
  simp only [cats.WindowedForecast.len] at h
  split at h
  · have := Except.ok.inj h
    omega
  · rename_i hbase
    split at h
    · rename_i mw hmw
      simp only [bind_eq_ok] at h
      obtain ⟨q, _, h⟩ := h
      obtain ⟨m1, hm1, h⟩ := h
      have hm1v := Except.ok.inj hm1
      have hn := Except.ok.inj h
      split at hn
      · split at hn
        · rename_i j hj
          have hjlt := findFirstIdx_some_lt hj
          rw [List.length_range] at hjlt
          omega
        · omega
      · omega
    · simp only [ok_bind] at h
      have hn := Except.ok.inj h
      split at hn
      · split at hn
        · rename_i j hj
          have hjlt := findFirstIdx_some_lt hj
          rw [List.length_range] at hjlt
          omega
        · omega
      · omega

/-- Inversion of a successful `window_points`: the assembled list is
`[lbound] + data[index+1 : index+ndata] + [rbound]`, the left boundary sits
at the window start, and the right boundary is either the forecast's last
sample (only when `index + ndata However = len(data)`) or an interpolated point at
the window end. -/
theorem window_points_ok_shape {w : cats.WindowedForecast} {i : ℤ}
    {lb rb : cats.CarbonIntensityPointEstimate}
    {wd : List cats.CarbonIntensityPointEstimate}
    (h : w.window_points i = Except.ok (lb, rb, wd)) :
    wd = [lb] ++ pySlice w.data (i + 1) (i + (w.ndata : ℤ)) ++ [rb] ∧
    lb.datetime = w.start + i * w.data_stepsize ∧
    (i + (w.ndata : ℤ) = (w.data.length : ℤ) ∨
      rb.datetime = w.«end» + i * w.data_stepsize) := by
  simp only [cats.WindowedForecast.window_points, bind_eq_ok] at h
  obtain ⟨a, _, h⟩ := h
  obtain ⟨b, _, h⟩ := h
  obtain ⟨lb', hlb, h⟩ := h
  split at h
  · rename_i hcond
    simp only [bind_eq_ok] at h
    obtain ⟨rb', _, h⟩ := h
    have htup := Except.ok.inj h
    have h1 : lb' = lb := congrArg Prod.fst htup
    have h2 : rb' = rb := congrArg (fun p => p.2.1) htup
    have h3 : [lb'] ++ pySlice w.data (i + 1) (i + (w.ndata : ℤ)) ++ [rb'] = wd :=
      congrArg (fun p => p.2.2) htup
    subst h1 h2 h3
    exact ⟨rfl, interp_ok_datetime hlb, Or.inl hcond⟩
  · simp only [bind_eq_ok] at h
    obtain ⟨c, _, h⟩ := h
    obtain ⟨d, _, h⟩ := h
    obtain ⟨rb', hrb, h⟩ := h
    have htup := Except.ok.inj h
    have h1 : lb' = lb := congrArg Prod.fst htup
    have h2 : rb' = rb := congrArg (fun p => p.2.1) htup
    have h3 : [lb'] ++ pySlice w.data (i + 1) (i + (w.ndata : ℤ)) ++ [rb'] = wd :=
      congrArg (fun p => p.2.2) htup
    subst h1 h2 h3
    exact ⟨rfl, interp_ok_datetime hlb, Or.inr (interp_ok_datetime hrb)⟩

/-- Inversion of a successful cats `__getitem__`: the returned record's
fields in terms of the assembled point list and its two boundary points. -/
theorem getitem_ok_inv {w : cats.WindowedForecast} {i : ℤ}
    {a : cats.CarbonIntensityAverageEstimate}
    (h : w.getitem i = Except.ok a) :
    ∃ n lb rb,
      w.len = Except.ok n ∧ ¬ n ≤ i ∧
      w.window_points i
        = Except.ok (lb, rb, [lb] ++ pySlice w.data (i + 1) (i + (w.ndata : ℤ)) ++ [rb]) ∧
      rb.datetime - lb.datetime ≠ 0 ∧
      a = ⟨cats.trapzAcc ([lb] ++ pySlice w.data (i + 1) (i + (w.ndata : ℤ)) ++ [rb])
            / (rb.datetime - lb.datetime),
           w.start + i * w.data_stepsize, w.«end» + i * w.data_stepsize,
           lb.value, rb.value⟩ := by
  simp only [cats.WindowedForecast.getitem, bind_eq_ok] at h
  obtain ⟨n, hn, h⟩ := h
  split at h
  · exact absurd h (by simp)
  · rename_i hni
    simp only [bind_eq_ok] at h
    obtain ⟨⟨lb, rb, wd⟩, hwp, h⟩ := h
    obtain ⟨hshape, _, _⟩ := window_points_ok_shape hwp
    subst hshape
    obtain ⟨lastp, hlast, h⟩ := h
    obtain ⟨firstp, hfirst, h⟩ := h
    rw [pyGetE_shape_neg_one] at hlast
    rw [pyGetE_shape_zero] at hfirst
    have hl := Except.ok.inj hlast
    have hf := Except.ok.inj hfirst
    subst hl hf
    obtain ⟨v, hv, h⟩ := h
    simp only [pyDiv] at hv
    split at hv
    · exact absurd hv (by simp)
    · rename_i hne
      have hvv := Except.ok.inj hv
      have ha := Except.ok.inj h
      refine ⟨n, lb, rb, hn, hni, hwp, hne, ?_⟩
      rw [← ha, ← hvv]

/-- C2: every window returned by the cats `WindowedForecast` at a valid
offset `i` starts exactly at `S + i·step` and spans exactly the requested
duration: `end - start = D` (in seconds, `60·D` for `D` minutes). -/
theorem c2_window_alignment :
    ∀ (data : List cats.CarbonIntensityPointEstimate) (duration : ℤ)
      (start : ℚ) (mw : Option ℤ) (ec : Option ℚ) (w : cats.WindowedForecast)
      (n i : ℤ) (a : cats.CarbonIntensityAverageEstimate),
      cats.WindowedForecast.init data duration start mw ec = Except.ok w →
      w.len = Except.ok n → 0 ≤ i → i < n →
      w.getitem i = Except.ok a →
      a.start = start + i * w.data_stepsize ∧
      a.«end» - a.start = 60 * (duration : ℚ) := by
  intro data duration start mw ec w n i a hinit _ _ _ hget
  obtain ⟨hstart, hend, _, _, _⟩ := init_ok_fields hinit
  obtain ⟨_, _, _, _, _, _, _, ha⟩ := getitem_ok_inv hget
  subst ha
  constructor
  · show w.start + i * w.data_stepsize = start + i * w.data_stepsize
    rw [hstart]
  · show (w.«end» + i * w.data_stepsize) - (w.start + i * w.data_stepsize)
        = 60 * (duration : ℚ)
    rw [hstart, hend]
    ring

/-- C3: at every valid offset the assembled point list spans exactly
`[windowStart, windowStart + D]` — its first point sits at the window start,
its last at the window end, the elapsed time between them is exactly `D·60`
seconds and hence a nonzero divisor, and any returned average is the
trapezoidal sum divided by exactly that window duration. -/
theorem c3_window_points_span :
    ∀ (data : List cats.CarbonIntensityPointEstimate) (duration : ℤ)
      (start : ℚ) (mw : Option ℤ) (ec : Option ℚ) (w : cats.WindowedForecast)
      (n i : ℤ) (lb rb : cats.CarbonIntensityPointEstimate)
      (wd : List cats.CarbonIntensityPointEstimate),
      cats.WindowedForecast.init data duration start mw ec = Except.ok w →
      w.len = Except.ok n → 0 ≤ i → i < n → 0 < duration →
      w.window_points i = Except.ok (lb, rb, wd) →
      wd.head? = some lb ∧ wd.getLast? = some rb ∧
      lb.datetime = start + i * w.data_stepsize ∧
      rb.datetime - lb.datetime = 60 * (duration : ℚ) ∧
      60 * (duration : ℚ) ≠ 0 ∧
      (∀ a, w.getitem i = Except.ok a →
        a.value = cats.trapzAcc wd / (60 * (duration : ℚ))) := by
  intro data duration start mw ec w n i lb rb wd hinit hn h0 hlt hdur hwp
  obtain ⟨hstart, hend, _, hnd, _⟩ := init_ok_fields hinit
  have hbase := len_ok_bound hn h0 hlt
  obtain ⟨hshape, hlbdt, hor⟩ := window_points_ok_shape hwp
  have hcond : ¬ (i + (w.ndata : ℤ) = (w.data.length : ℤ)) := by omega
  have hrbdt : rb.datetime = w.«end» + i * w.data_stepsize := by
    rcases hor with h | h
    · exact absurd h hcond
    · exact h
  have hdurq : (0 : ℚ) < 60 * (duration : ℚ) := by
    have : (0 : ℚ) < (duration : ℚ) := by exact_mod_cast hdur
    linarith
  have hspan : rb.datetime - lb.datetime = 60 * (duration : ℚ) := by
    rw [hrbdt, hlbdt, hend, hstart]
    ring
  refine ⟨?_, ?_, ?_, hspan, ne_of_gt hdurq, ?_⟩
  · rw [hshape]
    rfl
  · rw [hshape]
    rw [show [lb] ++ pySlice w.data (i + 1) (i + (w.ndata : ℤ)) ++ [rb]
        = ([lb] ++ pySlice w.data (i + 1) (i + (w.ndata : ℤ))) ++ [rb] by simp]
    exact List.getLast?_concat _
  · rw [hlbdt, hstart]
  · intro a hget
    obtain ⟨n', lb', rb', _, _, hwp', hne', ha⟩ := getitem_ok_inv hget
    rw [hwp] at hwp'
    have htup := Except.ok.inj hwp'
    have h1 : lb = lb' := congrArg Prod.fst htup
    have h2 : rb = rb' := congrArg (fun p => p.2.1) htup
    subst h1 h2
    rw [ha]
    show cats.trapzAcc ([lb] ++ pySlice w.data (i + 1) (i + (w.ndata : ℤ)) ++ [rb])
        / (rb.datetime - lb.datetime) = cats.trapzAcc wd / (60 * (duration : ℚ))
    rw [hspan, hshape]

/-- Forward construction of `window_points` at a valid offset: with strictly
increasing input samples both boundary interpolations succeed, the
end-of-forecast branch is unreachable, and the boundaries sit at the window
start and end. -/
theorem window_points_ok_forward
    {data : List cats.CarbonIntensityPointEstimate} {duration : ℤ}
    {start : ℚ} {mw : Option ℤ} {ec : Option ℚ} {w : cats.WindowedForecast}
    {n i : ℤ}
    (hinit : cats.WindowedForecast.init data duration start mw ec = Except.ok w)
    (hpw : data.Pairwise (fun p q => p.datetime < q.datetime))
    (hn : w.len = Except.ok n) (h0 : 0 ≤ i) (hlt : i < n) :
    ∃ lb rb, w.window_points i
        = Except.ok (lb, rb, [lb] ++ pySlice w.data (i + 1) (i + (w.ndata : ℤ)) ++ [rb]) ∧
      lb.datetime = w.start + i * w.data_stepsize ∧
      rb.datetime = w.«end» + i * w.data_stepsize := by
  obtain ⟨_, _, _, hnd, hsub⟩ := init_ok_fields hinit
  have hbase := len_ok_bound hn h0 hlt
  have hpw' : w.data.Pairwise (fun p q => p.datetime < q.datetime) :=
    hpw.sublist hsub
  have hiL : i.toNat < w.data.length := by omega
  have hi1L : (i + 1).toNat < w.data.length := by omega
  have hk1 : (0 : ℤ) ≤ i + (w.ndata : ℤ) - 1 := by omega
  have hk1L : (i + (w.ndata : ℤ) - 1).toNat < w.data.length := by omega
  have hk2L : (i + (w.ndata : ℤ)).toNat < w.data.length := by omega
  have hadj1 : (w.data.get ⟨i.toNat, hiL⟩).datetime
      < (w.data.get ⟨(i + 1).toNat, hi1L⟩).datetime := by
    refine List.pairwise_iff_get.mp hpw' _ _ ?_
    show i.toNat < (i + 1).toNat
    omega
  have hadj2 : (w.data.get ⟨(i + (w.ndata : ℤ) - 1).toNat, hk1L⟩).datetime
      < (w.data.get ⟨(i + (w.ndata : ℤ)).toNat, hk2L⟩).datetime := by
    refine List.pairwise_iff_get.mp hpw' _ _ ?_
    show (i + (w.ndata : ℤ) - 1).toNat < (i + (w.ndata : ℤ)).toNat
    omega
  have hne1 : (w.data.get ⟨(i + 1).toNat, hi1L⟩).datetime
      - (w.data.get ⟨i.toNat, hiL⟩).datetime ≠ 0 :=
    sub_ne_zero.mpr (ne_of_gt hadj1)
  have hne2 : (w.data.get ⟨(i + (w.ndata : ℤ)).toNat, hk2L⟩).datetime
      - (w.data.get ⟨(i + (w.ndata : ℤ) - 1).toNat, hk1L⟩).datetime ≠ 0 :=
    sub_ne_zero.mpr (ne_of_gt hadj2)
  have hcond : ¬ (i + (w.ndata : ℤ) = (w.data.length : ℤ)) := by omega
  have hmain : ∃ lv rv, w.window_points i
      = Except.ok ((⟨lv, w.start + i * w.data_stepsize⟩ :
            cats.CarbonIntensityPointEstimate),
          (⟨rv, w.«end» + i * w.data_stepsize⟩ : cats.CarbonIntensityPointEstimate),
          [(⟨lv, w.start + i * w.data_stepsize⟩ : cats.CarbonIntensityPointEstimate)]
            ++ pySlice w.data (i + 1) (i + (w.ndata : ℤ))
            ++ [(⟨rv, w.«end» + i * w.data_stepsize⟩ :
                  cats.CarbonIntensityPointEstimate)]) := by
    refine ⟨(w.data.get ⟨i.toNat, hiL⟩).value +
        ((w.data.get ⟨(i + 1).toNat, hi1L⟩).value
            - (w.data.get ⟨i.toNat, hiL⟩).value)
          / ((w.data.get ⟨(i + 1).toNat, hi1L⟩).datetime
            - (w.data.get ⟨i.toNat, hiL⟩).datetime)
          * (w.start + i * w.data_stepsize - (w.data.get ⟨i.toNat, hiL⟩).datetime),
      (w.data.get ⟨(i + (w.ndata : ℤ) - 1).toNat, hk1L⟩).value +
        ((w.data.get ⟨(i + (w.ndata : ℤ)).toNat, hk2L⟩).value
            - (w.data.get ⟨(i + (w.ndata : ℤ) - 1).toNat, hk1L⟩).value)
          / ((w.data.get ⟨(i + (w.ndata : ℤ)).toNat, hk2L⟩).datetime
            - (w.data.get ⟨(i + (w.ndata : ℤ) - 1).toNat, hk1L⟩).datetime)
          * (w.«end» + i * w.data_stepsize
            - (w.data.get ⟨(i + (w.ndata : ℤ) - 1).toNat, hk1L⟩).datetime), ?_⟩
    simp only [cats.WindowedForecast.window_points]
    rw [pyGetE_ok_of_nonneg h0 hiL, ok_bind,
      pyGetE_ok_of_nonneg (by omega : (0 : ℤ) ≤ i + 1) hi1L, ok_bind,
      interp_ok_of_ne hne1, ok_bind, if_neg hcond,
      pyGetE_ok_of_nonneg hk1 hk1L, ok_bind,
      pyGetE_ok_of_nonneg (by omega : (0 : ℤ) ≤ i + (w.ndata : ℤ)) hk2L, ok_bind,
      interp_ok_of_ne hne2, ok_bind]
  obtain ⟨lv, rv, hmain⟩ := hmain
  exact ⟨_, _, hmain, rfl, rfl⟩

/-- C7 counterexample: `get(-1)` on a four-sample forecast *succeeds* (Python
negative indexing is never rejected by the range check), so `get` does not
fail for every negative index as the claim states. -/
theorem c7_negative_index_succeeds :
    wfFour.getitem (-1) = Except.ok ⟨50, -1800, 0, 0, 100⟩ ∧ (-1 : ℤ) < 0 := by
  refine ⟨?_, by norm_num⟩
  have hn : wfFour.len = Except.ok 3 := by
    norm_num [cats.WindowedForecast.len, wfFour, fourSampleData, pyDiv, pyInt,
      Bind.bind, Except.bind]
  have g1 : pyGetE fourSampleData (-1)
      = Except.ok ⟨400, 5400⟩ := by decide
  have g2 : pyGetE fourSampleData (-1 + 1)
      = Except.ok ⟨100, 0⟩ := by decide
  have g3 : pyGetE fourSampleData (-1 + ((1 : ℕ) : ℤ) - 1)
      = Except.ok ⟨400, 5400⟩ := by decide
  have g2b : pyGetE fourSampleData (-1 + ((1 : ℕ) : ℤ))
      = Except.ok ⟨100, 0⟩ := by decide
  have hne1 : ((⟨100, 0⟩ : cats.CarbonIntensityPointEstimate)).datetime
      - ((⟨400, 5400⟩ : cats.CarbonIntensityPointEstimate)).datetime ≠ 0 := by
    norm_num
  have hcond : ¬ ((-1 : ℤ) + ((1 : ℕ) : ℤ) = ((fourSampleData.length : ℕ) : ℤ)) := by
    norm_num [fourSampleData]
  simp only [cats.WindowedForecast.getitem]
  rw [hn, ok_bind, if_neg (by norm_num : ¬ (3 : ℤ) ≤ -1)]
  simp only [cats.WindowedForecast.window_points, wfFour]
  rw [g1, ok_bind, g2, ok_bind, interp_ok_of_ne hne1, ok_bind, if_neg hcond,
    g3, ok_bind, g2b, ok_bind, interp_ok_of_ne hne1, ok_bind]
  simp only [ok_bind]
  rw [pyGetE_shape_neg_one, ok_bind, pyGetE_shape_zero, ok_bind]
  have hnediv : ((0 : ℚ) + (-1 : ℤ) * 1800 + 60 * (30 : ℤ))
      - ((0 : ℚ) + (-1 : ℤ) * 1800) ≠ 0 := by norm_num
  norm_num [pyDiv, cats.trapzAcc, pySlice, pySliceBound, fourSampleData,
    Bind.bind, Except.bind]

/-- C7 (amended): `get(i)` fails with the `IndexError` for every `i ≥ length`
and succeeds for every `0 ≤ i < length` (for strictly increasing samples and
positive duration); negative indices are not range-checked and can succeed
via Python's negative-indexing semantics. -/
theorem c7_index_range :
    (∀ (w : cats.WindowedForecast) (n i : ℤ),
       w.len = Except.ok n → n ≤ i →
       w.getitem i = Except.error (PyErr.indexError "Window index out of range")) ∧
    (∀ (data : List cats.CarbonIntensityPointEstimate) (duration : ℤ)
       (start : ℚ) (mw : Option ℤ) (ec : Option ℚ) (w : cats.WindowedForecast)
       (n i : ℤ),
       cats.WindowedForecast.init data duration start mw ec = Except.ok w →
       data.Pairwise (fun p q => p.datetime < q.datetime) →
       0 < duration →
       w.len = Except.ok n → 0 ≤ i → i < n →
       ∃ a, w.getitem i = Except.ok a) := by
  constructor
  · intro w n i hn hni
    simp only [cats.WindowedForecast.getitem]
    rw [hn, ok_bind, if_pos hni]
  · intro data duration start mw ec w n i hinit hpw hdur hn h0 hlt
    obtain ⟨hstart, hend, _, _, _⟩ := init_ok_fields hinit
    obtain ⟨lb, rb, hwp, hlbdt, hrbdt⟩ :=
      window_points_ok_forward hinit hpw hn h0 hlt
    have hne : rb.datetime - lb.datetime ≠ 0 := by
      rw [hrbdt, hlbdt, hend, hstart]
      have : (0 : ℚ) < (duration : ℚ) := by exact_mod_cast hdur
      have h60 : (0 : ℚ) < 60 * (duration : ℚ) := by linarith
      intro hcontra
      apply ne_of_gt h60
      linarith [hcontra]
    refine ⟨⟨cats.trapzAcc ([lb] ++ pySlice w.data (i + 1) (i + (w.ndata : ℤ)) ++ [rb])
        / (rb.datetime - lb.datetime), w.start + i * w.data_stepsize,
        w.«end» + i * w.data_stepsize, lb.value, rb.value⟩, ?_⟩
    simp only [cats.WindowedForecast.getitem]
    rw [hn, ok_bind, if_neg (not_le.mpr hlt), hwp, ok_bind]
    simp only []
    rw [pyGetE_shape_neg_one, ok_bind, pyGetE_shape_zero, ok_bind]
    simp only [pyDiv, if_neg hne, ok_bind]

/-- C7 witness: on the four-sample forecast (length 3), `get(3)` raises the
index error and `get(0)` succeeds. -/
theorem c7_index_range_witness :
    wfFour.getitem 3 = Except.error (PyErr.indexError "Window index out of range") ∧
    ∃ a, wfFour.getitem 0 = Except.ok a := by
  have hlen : wfFour.len = Except.ok 3 := by
    norm_num [cats.WindowedForecast.len, wfFour, fourSampleData, pyDiv, pyInt,
      Bind.bind, Except.bind]
  have hinit : cats.WindowedForecast.init fourSampleData 30 0 none none
      = Except.ok wfFour := by
    norm_num [cats.WindowedForecast.init, cats.filter_data_by_constraints,
      cats.bisect_right, cats.bisect_left, findFirstIdx, wfFour, fourSampleData,
      pyGetE, pyGet, pyIdx, pySliceFrom, pySliceBound, Bind.bind, Except.bind]
  have hpw : fourSampleData.Pairwise (fun p q => p.datetime < q.datetime) := by
    norm_num [fourSampleData, List.pairwise_cons]
  exact ⟨c7_index_range.1 wfFour 3 3 hlen (le_refl 3),
    c7_index_range.2 fourSampleData 30 0 none none wfFour 3 0 hinit hpw
      (by norm_num) hlen (by norm_num) (by norm_num)⟩

/-- C2 witness: the window at offset 0 of the four-sample forecast starts at
`S + 0·step` and spans exactly 30 minutes. -/
theorem c2_window_alignment_witness :
    (⟨150, 0, 1800, 100, 200⟩ : cats.CarbonIntensityAverageEstimate).start
      = 0 + 0 * wfFour.data_stepsize ∧
    (⟨150, 0, 1800, 100, 200⟩ : cats.CarbonIntensityAverageEstimate).«end»
      - (⟨150, 0, 1800, 100, 200⟩ : cats.CarbonIntensityAverageEstimate).start
      = 60 * ((30 : ℤ) : ℚ) := by
  have hinit : cats.WindowedForecast.init fourSampleData 30 0 none none
      = Except.ok wfFour := by
    norm_num [cats.WindowedForecast.init, cats.filter_data_by_constraints,
      cats.bisect_right, cats.bisect_left, findFirstIdx, wfFour, fourSampleData,
      pyGetE, pyGet, pyIdx, pySliceFrom, pySliceBound, Bind.bind, Except.bind]
  have hlen : wfFour.len = Except.ok 3 := by
    norm_num [cats.WindowedForecast.len, wfFour, fourSampleData, pyDiv, pyInt,
      Bind.bind, Except.bind]
  have hget : wfFour.getitem 0 = Except.ok ⟨150, 0, 1800, 100, 200⟩ := by
    norm_num [cats.WindowedForecast.getitem, cats.WindowedForecast.len,
      cats.WindowedForecast.window_points, cats.WindowedForecast.interp,
      cats.trapzAcc, wfFour, fourSampleData,
      pyGetE, pyGet, pyIdx, pySlice, pySliceFrom, pySliceBound, pyDiv, pyInt,
      Bind.bind, Except.bind]
  exact c2_window_alignment fourSampleData 30 0 none none wfFour 3 0
    ⟨150, 0, 1800, 100, 200⟩ hinit hlen (by norm_num) (by norm_num) hget

/-- C3 witness: the assembled point list for window 0 of the four-sample
forecast spans [0, 30 min] exactly, and the returned average is the
trapezoidal sum divided by exactly 1800 seconds. -/
theorem c3_window_points_span_witness :
    ([(⟨100, 0⟩ : cats.CarbonIntensityPointEstimate), ⟨200, 1800⟩].head?
        = some ⟨100, 0⟩) ∧
    ([(⟨100, 0⟩ : cats.CarbonIntensityPointEstimate), ⟨200, 1800⟩].getLast?
        = some ⟨200, 1800⟩) ∧
    (⟨100, 0⟩ : cats.CarbonIntensityPointEstimate).datetime
      = 0 + 0 * wfFour.data_stepsize ∧
    (⟨200, 1800⟩ : cats.CarbonIntensityPointEstimate).datetime
      - (⟨100, 0⟩ : cats.CarbonIntensityPointEstimate).datetime
      = 60 * ((30 : ℤ) : ℚ) ∧
    (150 : ℚ) = cats.trapzAcc [⟨100, 0⟩, ⟨200, 1800⟩] / (60 * ((30 : ℤ) : ℚ)) := by
  have hinit : cats.WindowedForecast.init fourSampleData 30 0 none none
      = Except.ok wfFour := by
    norm_num [cats.WindowedForecast.init, cats.filter_data_by_constraints,
      cats.bisect_right, cats.bisect_left, findFirstIdx, wfFour, fourSampleData,
      pyGetE, pyGet, pyIdx, pySliceFrom, pySliceBound, Bind.bind, Except.bind]
  have hlen : wfFour.len = Except.ok 3 := by
    norm_num [cats.WindowedForecast.len, wfFour, fourSampleData, pyDiv, pyInt,
      Bind.bind, Except.bind]
  have hwp : wfFour.window_points 0
      = Except.ok (⟨100, 0⟩, ⟨200, 1800⟩, [⟨100, 0⟩, ⟨200, 1800⟩]) := by
    norm_num [cats.WindowedForecast.window_points, cats.WindowedForecast.interp,
      wfFour, fourSampleData, pyGetE, pyGet, pyIdx, pySlice, pySliceFrom,
      pySliceBound, pyDiv, Bind.bind, Except.bind]
  have hget : wfFour.getitem 0 = Except.ok ⟨150, 0, 1800, 100, 200⟩ := by
    norm_num [cats.WindowedForecast.getitem, cats.WindowedForecast.len,
      cats.WindowedForecast.window_points, cats.WindowedForecast.interp,
      cats.trapzAcc, wfFour, fourSampleData,
      pyGetE, pyGet, pyIdx, pySlice, pySliceFrom, pySliceBound, pyDiv, pyInt,
      Bind.bind, Except.bind]
  have h := c3_window_points_span fourSampleData 30 0 none none wfFour 3 0
    ⟨100, 0⟩ ⟨200, 1800⟩ [⟨100, 0⟩, ⟨200, 1800⟩] hinit hlen (by norm_num)
    (by norm_num) (by norm_num) hwp
  exact ⟨h.1, h.2.1, h.2.2.1, h.2.2.2.1,
    by rw [← h.2.2.2.2.2 ⟨150, 0, 1800, 100, 200⟩ hget]⟩
